import Mathlib

/-!
Verification of the Amplifier module source resolution engine
(`amplifier-module-resolution`): the six-layer precedence resolver
(`resolvers.py`), its source-descriptor parser, the workspace validation
heuristics, and the Source variants (File / Git / Package) with the Git
cache-key derivation and cache layout.

Modelling conventions:
- Filesystem paths are plain strings joined with a forward slash; the
  filesystem itself is an explicit value (a list of regular files and a list
  of directories) passed to the functions that consult it.
- The process environment is a function from variable name to
  `Option String`; installed-package lookup is a predicate on package names.
- Python exceptions become an explicit `PyError` sum returned through
  `Except`; a provider that raises is modelled as an `Except.error` value
  held by the resolver.
- Strings are treated as ASCII: the byte encoding of a string is the list of
  its code points, which agrees with UTF-8 on every input considered here.
- `sources.py` itself is not part of the given sources (only its callers and
  tests are); the Source variants are modelled from the spec where so marked.
-/

set_option maxRecDepth 100000

namespace AmplifierResolution

/-! ### String helpers (executable, kernel-reducible) -/

/-- Boolean test that the string `s` begins with the string `p` (the model of
Python `str.startswith`). -/
def strStarts (s p : String) : Bool := p.data.isPrefixOf s.data

/-- Boolean test that the string `s` ends with the string `p` (the model of
Python `str.endswith`). -/
def strEnds (s p : String) : Bool := p.data.isSuffixOf s.data

/-- First `n` characters of a string (the model of Python slicing `s[:n]`). -/
def strTake (s : String) (n : Nat) : String := String.mk (s.data.take n)

/-- Drop the first `n` characters of a string (the model of `s[n:]`). -/
def strDrop (s : String) (n : Nat) : String := String.mk (s.data.drop n)

/-- Python truthiness of an optional string: `None` and the empty string are
falsy, any other string is truthy and is kept. -/
def truthyStr : Option String → Option String
  | none => none
  | some s => if s = "" then none else some s

/-- Model of Python dict membership plus indexing for a `dict[str, str]`,
as an association-list lookup. -/
def lookupStr : List (String × String) → String → Option String
  | [], _ => none
  | (k, v) :: rest, key => if k = key then some v else lookupStr rest key

/-- Model of `", ".join(items)`. -/
def joinComma : List String → String
  | [] => ""
  | [x] => x
  | x :: y :: rest => x ++ ", " ++ joinComma (y :: rest)

/-- Model of `module_id.upper().replace(chr(45), chr(95))`: uppercase the
identifier and turn hyphens into underscores (identifiers are ASCII). -/
def upperSnake (s : String) : String :=
  String.mk (s.data.map (fun c => if c = '-' then '_' else c.toUpper))

/-- The string `t` occurs as a contiguous substring of `s`. -/
def hasSub (s t : String) : Prop := ∃ l r, s = l ++ t ++ r

/-! ### Filesystem model

A filesystem is an explicit list of regular files and directories, each named
by a slash-joined path string. -/

structure FileSystem where
  files : List String
  dirs : List String

/-- Model of `Path.is_file()`. -/
def FileSystem.isFile (fs : FileSystem) (p : String) : Bool := fs.files.contains p

/-- Model of `Path.exists()`: the path is a known regular file or directory. -/
def FileSystem.pathExists (fs : FileSystem) (p : String) : Bool :=
  fs.files.contains p || fs.dirs.contains p

/-- Model of `any(path.glob(pattern))` for the recursive pattern matching all
Python files below `p`: some regular file lives strictly below the directory
`p` and its name ends in the Python extension. -/
def FileSystem.globPy (fs : FileSystem) (p : String) : Bool :=
  fs.dirs.contains p &&
    fs.files.any (fun f => strStarts f (p ++ "/") && strEnds f ".py")

/-! ### The Source data model (`sources.py`, modelled from the spec) -/

/-- Local-directory source: `FileSource` of `sources.py`. -/
structure FileSource where
  path : String
deriving DecidableEq, Repr

/-- Version-controlled remote source: `GitSource` of `sources.py`. -/
structure GitSource where
  url : String
  ref : String
  subdirectory : Option String
deriving DecidableEq, Repr

/-- Installed-package source: `PackageSource` of `sources.py`. -/
structure PackageSource where
  package_name : String
deriving DecidableEq, Repr

/-- The tagged union of the three source variants. -/
inductive ModuleSource where
  | file (f : FileSource)
  | git (g : GitSource)
  | package (p : PackageSource)
deriving DecidableEq, Repr

/-- The structured (dict) form of a source descriptor: each field of the
Python dict that `_parse_source` may read, `none` when the key is absent. -/
structure DictSource where
  type : Option String
  url : Option String
  ref : Option String
  subdirectory : Option String
  path : Option String
  name : Option String
deriving DecidableEq, Repr

/-- A source descriptor as accepted by `_parse_source`: a string URI or a
structured dict. -/
inductive SourceDesc where
  | str (s : String)
  | dict (d : DictSource)
deriving DecidableEq, Repr

/-- The Python exceptions that module resolution can surface. `providerError`
stands for an arbitrary exception raised inside an injected provider. -/
inductive PyError where
  | valueError (msg : String)
  | keyError (key : String)
  | moduleResolutionError (msg : String)
  | installError (msg : String)
  | providerError (msg : String)
deriving DecidableEq, Repr

instance {ε α : Type} [DecidableEq ε] [DecidableEq α] : DecidableEq (Except ε α) :=
  fun a b =>
    match a, b with
    | .ok x, .ok y =>
      if h : x = y then .isTrue (by rw [h]) else .isFalse (fun hh => h (Except.ok.inj hh))
    | .error x, .error y =>
      if h : x = y then .isTrue (by rw [h]) else .isFalse (fun hh => h (Except.error.inj hh))
    | .ok _, .error _ => .isFalse (fun hh => Except.noConfusion hh)
    | .error _, .ok _ => .isFalse (fun hh => Except.noConfusion hh)

/-- Whether an exception is a `ModuleResolutionError` in the Python class
hierarchy (`InstallError` is its subclass; `ValueError` and `KeyError` are
not). -/
def PyError.isResolutionError : PyError → Bool
  | .moduleResolutionError _ => true
  | .installError _ => true
  | _ => false

/-! ### SHA-256 (executable, for the Git cache key)

A direct executable implementation of FIPS 180-4 SHA-256 over byte lists,
with machine words as `Nat` reduced mod `2 ^ 32`. -/

def M32 : Nat := 4294967296

def rotr32 (n x : Nat) : Nat := x / 2 ^ n + x % 2 ^ n * 2 ^ (32 - n)

def shr32 (n x : Nat) : Nat := x / 2 ^ n

def xor3 (a b c : Nat) : Nat := Nat.xor (Nat.xor a b) c

def bsig0 (x : Nat) : Nat := xor3 (rotr32 2 x) (rotr32 13 x) (rotr32 22 x)

def bsig1 (x : Nat) : Nat := xor3 (rotr32 6 x) (rotr32 11 x) (rotr32 25 x)

def ssig0 (x : Nat) : Nat := xor3 (rotr32 7 x) (rotr32 18 x) (shr32 3 x)

def ssig1 (x : Nat) : Nat := xor3 (rotr32 17 x) (rotr32 19 x) (shr32 10 x)

def chf (x y z : Nat) : Nat :=
  Nat.xor (Nat.land x y) (Nat.land (Nat.xor x 4294967295) z)

def majf (x y z : Nat) : Nat :=
  xor3 (Nat.land x y) (Nat.land x z) (Nat.land y z)

def sha256K : List Nat :=
  [1116352408, 1899447441, 3049323471, 3921009573, 961987163, 1508970993, 2453635748, 2870763221,
   3624381080, 310598401, 607225278, 1426881987, 1925078388, 2162078206, 2614888103, 3248222580,
   3835390401, 4022224774, 264347078, 604807628, 770255983, 1249150122, 1555081692, 1996064986,
   2554220882, 2821834349, 2952996808, 3210313671, 3336571891, 3584528711, 113926993, 338241895,
   666307205, 773529912, 1294757372, 1396182291, 1695183700, 1986661051, 2177026350, 2456956037,
   2730485921, 2820302411, 3259730800, 3345764771, 3516065817, 3600352804, 4094571909, 275423344,
   430227734, 506948616, 659060556, 883997877, 958139571, 1322822218, 1537002063, 1747873779,
   1955562222, 2024104815, 2227730452, 2361852424, 2428436474, 2756734187, 3204031479, 3329325298]

def sha256H0 : List Nat :=
  [1779033703, 3144134277, 1013904242, 2773480762, 1359893119, 2600822924, 528734635, 1541459225]

/-- Big-endian packing of bytes into 32-bit words. -/
def bytesToWords : List Nat → List Nat
  | b0 :: b1 :: b2 :: b3 :: rest =>
    (((b0 * 256 + b1) * 256 + b2) * 256 + b3) :: bytesToWords rest
  | _ => []

/-- Extend the 16 message words of one block to the 64-entry schedule. -/
def extendSchedule (w : Array Nat) : Array Nat :=
  (List.range 48).foldl
    (fun w i =>
      let t := i + 16
      w.push ((ssig1 (w.getD (t - 2) 0) + w.getD (t - 7) 0 +
               ssig0 (w.getD (t - 15) 0) + w.getD (t - 16) 0) % M32))
    w

/-- One round of the SHA-256 compression function. -/
def roundStep (w : Array Nat) (st : Nat × Nat × Nat × Nat × Nat × Nat × Nat × Nat)
    (i : Nat) : Nat × Nat × Nat × Nat × Nat × Nat × Nat × Nat :=
  match st with
  | (a, b, c, d, e, f, g, h) =>
    let t1 := (h + bsig1 e + chf e f g + sha256K.getD i 0 + w.getD i 0) % M32
    let t2 := (bsig0 a + majf a b c) % M32
    ((t1 + t2) % M32, a, b, c, (d + t1) % M32, e, f, g)

/-- Compress one 64-byte block into the running hash state. -/
def compressBlock (hs : List Nat) (block : List Nat) : List Nat :=
  let w := extendSchedule (List.toArray (bytesToWords block))
  match hs with
  | [h0, h1, h2, h3, h4, h5, h6, h7] =>
    match (List.range 64).foldl (roundStep w) (h0, h1, h2, h3, h4, h5, h6, h7) with
    | (a, b, c, d, e, f, g, h) =>
      [(h0 + a) % M32, (h1 + b) % M32, (h2 + c) % M32, (h3 + d) % M32,
       (h4 + e) % M32, (h5 + f) % M32, (h6 + g) % M32, (h7 + h) % M32]
  | _ => hs

/-- Fold the compression over `n` consecutive 64-byte blocks. -/
def sha256blocks : Nat → List Nat → List Nat → List Nat
  | 0, hs, _ => hs
  | n + 1, hs, bs => sha256blocks n (compressBlock hs (bs.take 64)) (bs.drop 64)

/-- FIPS 180-4 padding: append the byte 128, zero bytes up to 56 mod 64, then
the bit length as eight big-endian bytes. -/
def padMessage (msg : List Nat) : List Nat :=
  let bitLen := msg.length * 8
  let zeros := (119 - msg.length % 64) % 64
  msg ++ 128 :: (List.replicate zeros 0 ++
    (List.range 8).map (fun i => bitLen / 2 ^ (8 * (7 - i)) % 256))

/-- The eight 32-bit words of the SHA-256 digest of a byte string. -/
def sha256words (msg : List Nat) : List Nat :=
  let p := padMessage msg
  sha256blocks (p.length / 64) sha256H0 p

def hexDigit (n : Nat) : Char := Char.ofNat (if n < 10 then 48 + n else 87 + n)

def hexWord (w : Nat) : List Char :=
  (List.range 8).map (fun i => hexDigit (w / 16 ^ (7 - i) % 16))

/-- Lowercase hex digest of a byte string (the model of
`hashlib.sha256(x).hexdigest()`). -/
def sha256hex (msg : List Nat) : String :=
  String.mk ((sha256words msg).map hexWord).flatten

/-- UTF-8 bytes of a string; the inputs considered are ASCII, where UTF-8 is
the identity on code points (the model of `s.encode()`). -/
def strBytes (s : String) : List Nat := s.data.map Char.toNat

/-! ### Source operations (modelled from the spec where `sources.py` is absent) -/

/-- Modelled from the spec: the `FileSource` constructor of the missing
`sources.py` keeps the given path, stripping a leading local-scheme marker
`file://` from string input; absolute-path normalization is not modelled
(paths are kept as written). -/
def FileSource.make (p : String) : FileSource :=
  if strStarts p "file://" then ⟨strDrop p 7⟩ else ⟨p⟩

/-- Break a character list at the first occurrence of the character `c`,
returning the parts before and after it, or `none` when `c` does not occur. -/
def breakAtChar (c : Char) : List Char → Option (List Char × List Char)
  | [] => none
  | x :: xs =>
    if x = c then some ([], xs)
    else (breakAtChar c xs).map (fun p => (x :: p.1, p.2))

/-- Break a character list at the first occurrence of the separator sequence
`sep`, returning the parts before and after it. -/
def breakAtSeq (sep : List Char) : List Char → Option (List Char × List Char)
  | [] => none
  | x :: xs =>
    if sep.isPrefixOf (x :: xs) then some ([], (x :: xs).drop sep.length)
    else (breakAtSeq sep xs).map (fun p => (x :: p.1, p.2))

/-- Modelled from the spec: split a trailing `#subdirectory=...` fragment off
a string, returning the remainder and the optional subdirectory value. -/
def splitSubdirFragment (s : String) : String × Option String :=
  match breakAtSeq "#subdirectory=".data s.data with
  | some (l, r) => (String.mk l, some (String.mk r))
  | none => (s, none)

/-- Modelled from the spec: `GitSource.from_uri` of the missing `sources.py`.
Reject a string that does not start with the scheme marker; otherwise strip
the marker, split on a commercial-at into url and ref (ref defaulting to the
canonical branch name `main`), then split any trailing fragment naming a
subdirectory. -/
def GitSource.from_uri (uri : String) : Except PyError GitSource :=
  if strStarts uri "git+" then
    let stripped := strDrop uri 4
    match breakAtChar '@' stripped.data with
    | some (u, r) =>
      match splitSubdirFragment (String.mk r) with
      | (ref, sub) => .ok ⟨String.mk u, ref, sub⟩
    | none =>
      match splitSubdirFragment stripped with
      | (u, sub) => .ok ⟨u, "main", sub⟩
  else
    .error (.valueError ("Invalid git URI \x27" ++ uri ++ "\x27: must start with \x27git+\x27"))

/-- Modelled from the spec: the cache-key input of a Git source is `url@ref`,
suffixed with a hash mark and the subdirectory when one is present. -/
def GitSource.cache_key_input (s : GitSource) : String :=
  match s.subdirectory with
  | some sub => s.url ++ "@" ++ s.ref ++ "#" ++ sub
  | none => s.url ++ "@" ++ s.ref

/-- Modelled from the spec: the Git cache key is the first 12 lowercase hex
characters of the SHA-256 digest of the cache-key input. -/
def GitSource.cache_key (s : GitSource) : String :=
  strTake (sha256hex (strBytes s.cache_key_input)) 12

/-- Modelled from the spec: the expected on-disk cache location of a Git
source, `cache_root/cache_key/ref`. -/
def GitSource.cache_path (s : GitSource) (cache_root : String) : String :=
  cache_root ++ "/" ++ s.cache_key ++ "/" ++ s.ref

/-- Modelled from the spec: one invocation of the External Fetch Tool. On
success it reports the files it wrote, named relative to the target directory
(for a source with a subdirectory, the subdirectory content is written flatly
into the target); on failure it reports the stderr text of the tool. -/
inductive FetchOutcome where
  | success (files : List String)
  | failure (stderr : String)

/-- Modelled from the spec: `GitSource.resolve` of the missing `sources.py`.
Compute the cache path; return it directly on a cache hit; on a miss invoke
the fetch tool, wrapping a tool failure as an `InstallError` carrying the
stderr and writing no cache entry, and on fetch success return the cache path
itself (never the cache path extended with the subdirectory) together with
the filesystem now holding the fetched files under that path. -/
def GitSource.resolve (s : GitSource) (cache_root : String) (fs : FileSystem)
    (fetch : FetchOutcome) : Except PyError (String × FileSystem) :=
  let cache_path := s.cache_path cache_root
  if fs.pathExists cache_path then .ok (cache_path, fs)
  else
    match fetch with
    | .failure stderr =>
      .error (.installError ("Failed to download " ++ s.url ++ ": " ++ stderr))
    | .success written =>
      .ok (cache_path,
        { files := fs.files ++ written.map (fun f => cache_path ++ "/" ++ f),
          dirs := cache_path :: fs.dirs })

/-! ### The resolver (translated from `resolvers.py`) -/

/-- `StandardModuleSourceResolver` configuration: the ordered workspace
directories and the optional injected providers. A provider is modelled by
the outcome of invoking its single query method: either the mapping it
returns or the text of the exception it raises. -/
structure StandardModuleSourceResolver where
  workspace_dirs : List String
  settings_provider : Option (Except String (List (String × String)))
  collection_provider : Option (Except String (List (String × String)))

/-- The environment variable consulted by layer 1 for a module id:
`AMPLIFIER_MODULE_` followed by the upper-snake form of the id. -/
def envKey (module_id : String) : String :=
  "AMPLIFIER_MODULE_" ++ upperSnake module_id

/-- Python f-string interpolation of an optional string: `None` when absent. -/
def pyShow : Option String → String
  | none => "None"
  | some s => s

/-- Translation of `StandardModuleSourceResolver._parse_source`: a dict
descriptor dispatches on its `type` field (an unknown type is a
`ValueError` naming the type and the module id, a missing required field a
`KeyError`); a string descriptor starting with the remote scheme marker is
parsed as a Git source, a path-like or `file://` string as a File source,
and anything else as a package name. -/
def parse_source (source : SourceDesc) (module_id : String) :
    Except PyError ModuleSource :=
  match source with
  | .dict d =>
    if d.type = some "git" then
      match d.url with
      | some url => .ok (.git ⟨url, d.ref.getD "main", d.subdirectory⟩)
      | none => .error (.keyError "url")
    else if d.type = some "file" then
      match d.path with
      | some p => .ok (.file (FileSource.make p))
      | none => .error (.keyError "path")
    else if d.type = some "package" then
      match d.name with
      | some n => .ok (.package ⟨n⟩)
      | none => .error (.keyError "name")
    else
      .error (.valueError
        ("Invalid source type \x27" ++ pyShow d.type ++ "\x27 for module \x27" ++ module_id ++ "\x27"))
  | .str s =>
    if strStarts s "git+" then (GitSource.from_uri s).map .git
    else if strStarts s "file://" || strStarts s "/" || strStarts s "." then
      .ok (.file (FileSource.make s))
    else .ok (.package ⟨s⟩)

/-- Translation of `StandardModuleSourceResolver._is_empty_submodule`: the
directory carries a `.git` regular file (the submodule marker) but no Python
files anywhere beneath it. -/
def is_empty_submodule (fs : FileSystem) (path : String) : Bool :=
  let git_file := path ++ "/.git"
  fs.pathExists git_file && fs.isFile git_file && !(fs.globPy path)

/-- The workspace search loop inside
`StandardModuleSourceResolver._check_workspace`: try each workspace directory
in order; skip a candidate that does not exist, is an empty submodule, or
contains no Python files; accept the first remaining candidate. -/
def checkWorkspaceDirs (fs : FileSystem) (module_id : String) :
    List String → Option FileSource
  | [] => none
  | d :: rest =>
    let workspace_path := d ++ "/" ++ module_id
    if !(fs.pathExists workspace_path) then checkWorkspaceDirs fs module_id rest
    else if is_empty_submodule fs workspace_path then checkWorkspaceDirs fs module_id rest
    else if !(fs.globPy workspace_path) then checkWorkspaceDirs fs module_id rest
    else some ⟨workspace_path⟩

/-- Translation of `StandardModuleSourceResolver._check_workspace`. -/
def check_workspace (r : StandardModuleSourceResolver) (fs : FileSystem)
    (module_id : String) : Option FileSource :=
  if r.workspace_dirs.isEmpty then none
  else checkWorkspaceDirs fs module_id r.workspace_dirs

/-- The composed error text of `_resolve_package` when neither package name
is installed, translated line by line from the f-string in the source. -/
def resolutionFailureMessage (r : StandardModuleSourceResolver)
    (module_id convention_name : String) : String :=
  let workspace_msg :=
    if r.workspace_dirs.isEmpty then "N/A"
    else joinComma (r.workspace_dirs.map (fun d => d ++ "/" ++ module_id)) ++ " (none found)"
  "Module \x27" ++ module_id ++ "\x27 not found\n\n" ++
  "Resolution attempted:\n" ++
  "  1. Environment: AMPLIFIER_MODULE_" ++ upperSnake module_id ++ " (not set)\n" ++
  "  2. Workspace: " ++ workspace_msg ++ "\n" ++
  "  3. Settings: (no entry)\n" ++
  "  4. Collections: (no registered module)\n" ++
  "  5. Profile: (no source specified)\n" ++
  "  6. Package: Tried \x27" ++ module_id ++ "\x27 and \x27" ++ convention_name ++
    "\x27 (neither installed)\n\n" ++
  "Suggestions:\n" ++
  "  - Add source to profile: source: git+https://...\n" ++
  "  - Add source override to settings\n" ++
  "  - Install package: uv pip install <package-name>\n" ++
  "  - Install collection with module: amplifier collection add <collection-url>"

/-- Translation of `StandardModuleSourceResolver._resolve_package`: try the
exact module id as an installed package name, then the
`amplifier-module-` convention name, then raise the composed
`ModuleResolutionError`. -/
def resolve_package (r : StandardModuleSourceResolver) (installed : String → Bool)
    (module_id : String) : Except PyError PackageSource :=
  if installed module_id then .ok ⟨module_id⟩
  else
    let convention_name := "amplifier-module-" ++ module_id
    if installed convention_name then .ok ⟨convention_name⟩
    else .error (.moduleResolutionError (resolutionFailureMessage r module_id convention_name))

/-- Layer 6 of `resolve_with_layer`: the installed-package fallback. -/
def packageLayer (r : StandardModuleSourceResolver) (installed : String → Bool)
    (module_id : String) : Except PyError (ModuleSource × String) :=
  (resolve_package r installed module_id).map (fun p => (.package p, "package"))

/-- Layers 5 and 6 of `resolve_with_layer`: a truthy profile hint is parsed
as a source descriptor; otherwise fall through to the package layer. -/
def profileLayer (r : StandardModuleSourceResolver) (installed : String → Bool)
    (module_id : String) (profile_hint : Option String) :
    Except PyError (ModuleSource × String) :=
  match truthyStr profile_hint with
  | some h => (parse_source (.str h) module_id).map (fun s => (s, "profile"))
  | none => packageLayer r installed module_id

/-- Layers 4 to 6 of `resolve_with_layer`: the collection provider, when
present, is invoked (an exception it raises propagates); a hit wraps the
registered path as a `FileSource`; a miss falls through. -/
def collectionLayer (r : StandardModuleSourceResolver) (installed : String → Bool)
    (module_id : String) (profile_hint : Option String) :
    Except PyError (ModuleSource × String) :=
  match r.collection_provider with
  | some (.error e) => .error (.providerError e)
  | some (.ok collection_modules) =>
    match lookupStr collection_modules module_id with
    | some p => .ok (.file ⟨p⟩, "collection")
    | none => profileLayer r installed module_id profile_hint
  | none => profileLayer r installed module_id profile_hint

/-- Layers 3 to 6 of `resolve_with_layer`: the settings provider, when
present, is invoked (an exception it raises propagates); a hit parses the
stored descriptor; a miss falls through. -/
def settingsLayer (r : StandardModuleSourceResolver) (installed : String → Bool)
    (module_id : String) (profile_hint : Option String) :
    Except PyError (ModuleSource × String) :=
  match r.settings_provider with
  | some (.error e) => .error (.providerError e)
  | some (.ok sources) =>
    match lookupStr sources module_id with
    | some src => (parse_source (.str src) module_id).map (fun s => (s, "settings"))
    | none => collectionLayer r installed module_id profile_hint
  | none => collectionLayer r installed module_id profile_hint

/-- Translation of `StandardModuleSourceResolver.resolve_with_layer`: the six
layers in order — environment variable (a truthy value is parsed and wins),
workspace convention, settings provider, collection provider, profile hint,
installed package — each consulted only when every earlier layer missed. -/
def resolve_with_layer (r : StandardModuleSourceResolver)
    (env : String → Option String) (fs : FileSystem) (installed : String → Bool)
    (module_id : String) (profile_hint : Option String) :
    Except PyError (ModuleSource × String) :=
  match truthyStr (env (envKey module_id)) with
  | some env_value => (parse_source (.str env_value) module_id).map (fun s => (s, "env"))
  | none =>
    match (if r.workspace_dirs.isEmpty then none else check_workspace r fs module_id) with
    | some workspace_source => .ok (.file workspace_source, "workspace")
    | none => settingsLayer r installed module_id profile_hint

/-- Translation of `StandardModuleSourceResolver.resolve`: resolve and drop
the layer tag. -/
def resolve (r : StandardModuleSourceResolver) (env : String → Option String)
    (fs : FileSystem) (installed : String → Bool) (module_id : String)
    (profile_hint : Option String) : Except PyError ModuleSource :=
  (resolve_with_layer r env fs installed module_id profile_hint).map (fun x => x.1)

/-! ### Layer-miss predicates and helper lemmas -/

/-- The settings layer neither raised nor matched: the provider is absent, or
it returned a mapping without the module id. -/
def settingsMiss (r : StandardModuleSourceResolver) (module_id : String) : Prop :=
  r.settings_provider = none ∨
    ∃ m, r.settings_provider = some (.ok m) ∧ lookupStr m module_id = none

/-- The collection layer neither raised nor matched: the provider is absent,
or it returned a mapping without the module id. -/
def collectionMiss (r : StandardModuleSourceResolver) (module_id : String) : Prop :=
  r.collection_provider = none ∨
    ∃ m, r.collection_provider = some (.ok m) ∧ lookupStr m module_id = none

theorem workspaceGuard_eq (r : StandardModuleSourceResolver) (fs : FileSystem)
    (module_id : String) :
    (if r.workspace_dirs.isEmpty then none else check_workspace r fs module_id)
      = check_workspace r fs module_id := by
  cases h : r.workspace_dirs.isEmpty <;> simp [check_workspace, h]

theorem settingsLayer_of_miss (r : StandardModuleSourceResolver)
    (installed : String → Bool) (module_id : String) (profile_hint : Option String)
    (h : settingsMiss r module_id) :
    settingsLayer r installed module_id profile_hint
      = collectionLayer r installed module_id profile_hint := by
  rcases h with h | ⟨m, hm, hlk⟩ <;> simp [settingsLayer, *]

theorem collectionLayer_of_miss (r : StandardModuleSourceResolver)
    (installed : String → Bool) (module_id : String) (profile_hint : Option String)
    (h : collectionMiss r module_id) :
    collectionLayer r installed module_id profile_hint
      = profileLayer r installed module_id profile_hint := by
  rcases h with h | ⟨m, hm, hlk⟩ <;> simp [collectionLayer, *]

theorem pathExists_of_isFile (fs : FileSystem) (p : String)
    (h : fs.isFile p = true) : fs.pathExists p = true := by
  simp [FileSystem.isFile] at h
  simp [FileSystem.pathExists, h]

/-! Substring helper lemmas for `hasSub`. -/

theorem hasSub_self (s : String) : hasSub s s :=
  ⟨"", "", by simp⟩

theorem hasSub_appL {s t : String} (h : hasSub s t) (u : String) : hasSub (s ++ u) t := by
  obtain ⟨l, r, rfl⟩ := h
  exact ⟨l, r ++ u, by simp [String.append_assoc]⟩

theorem hasSub_appR {s t : String} (u : String) (h : hasSub s t) : hasSub (u ++ s) t := by
  obtain ⟨l, r, rfl⟩ := h
  exact ⟨u ++ l, r, by simp [String.append_assoc]⟩

/-- The target occurs inside the last component `L` of a left-associated
append chain `Y ++ L`. -/
theorem hasSub_tail {Y L t : String} (pre suf : String) (h : L = pre ++ t ++ suf) :
    hasSub (Y ++ L) t :=
  ⟨Y ++ pre, suf, by rw [h]; simp [String.append_assoc]⟩

/-- The target is a concatenation `t1 ++ v` whose first part ends the
component `L` and whose second part is the whole next component `v`. -/
theorem hasSub_tail_glue {Y L v t1 : String} (pre : String) (h : L = pre ++ t1) :
    hasSub (Y ++ L ++ v) (t1 ++ v) :=
  ⟨Y ++ pre, "", by rw [h]; simp [String.append_assoc]⟩

/-- The target spans the tail `t1` of the component `L`, then the three
following whole components `v`, `m` and `w`. -/
theorem hasSub_tail_glue4 {Y L v m w t1 : String} (pre : String) (h : L = pre ++ t1) :
    hasSub (Y ++ L ++ v ++ m ++ w) (t1 ++ v ++ m ++ w) :=
  ⟨Y ++ pre, "", by rw [h]; simp [String.append_assoc]⟩

theorem hasSub_joinComma {x : String} :
    ∀ l : List String, x ∈ l → hasSub (joinComma l) x
  | [y], h => by
    have : x = y := by simpa using h
    subst this
    exact hasSub_self x
  | y :: z :: rest, h => by
    rcases List.mem_cons.mp h with h | h
    · subst h
      exact hasSub_appL (hasSub_appL (hasSub_self x) ", ") (joinComma (z :: rest))
    · have ih := hasSub_joinComma (z :: rest) h
      exact hasSub_appR (y ++ ", ") ih

/-! ### Claim theorems -/

/-- C1: for every module id and optional profile hint, `resolve_with_layer`
evaluates the six layers in the fixed order env, workspace, settings,
collection, profile, package; it returns the source produced by the first
matching layer together with that layer's tag, and the result then depends
only on that layer's data, so no later layer is consulted once one matches
(env beats everything, package is the last resort). -/
theorem resolve_with_layer_precedence
    (r : StandardModuleSourceResolver) (env : String → Option String)
    (fs : FileSystem) (installed : String → Bool) (module_id : String)
    (profile_hint : Option String) :
    (∀ v, truthyStr (env (envKey module_id)) = some v →
      resolve_with_layer r env fs installed module_id profile_hint
        = (parse_source (.str v) module_id).map (fun s => (s, "env"))) ∧
    (truthyStr (env (envKey module_id)) = none →
      ∀ ws, check_workspace r fs module_id = some ws →
      resolve_with_layer r env fs installed module_id profile_hint
        = .ok (.file ws, "workspace")) ∧
    (truthyStr (env (envKey module_id)) = none →
      check_workspace r fs module_id = none →
      ∀ m src, r.settings_provider = some (.ok m) → lookupStr m module_id = some src →
      resolve_with_layer r env fs installed module_id profile_hint
        = (parse_source (.str src) module_id).map (fun s => (s, "settings"))) ∧
    (truthyStr (env (envKey module_id)) = none →
      check_workspace r fs module_id = none →
      settingsMiss r module_id →
      ∀ m p, r.collection_provider = some (.ok m) → lookupStr m module_id = some p →
      resolve_with_layer r env fs installed module_id profile_hint
        = .ok (.file ⟨p⟩, "collection")) ∧
    (truthyStr (env (envKey module_id)) = none →
      check_workspace r fs module_id = none →
      settingsMiss r module_id → collectionMiss r module_id →
      ∀ h, truthyStr profile_hint = some h →
      resolve_with_layer r env fs installed module_id profile_hint
        = (parse_source (.str h) module_id).map (fun s => (s, "profile"))) ∧
    (truthyStr (env (envKey module_id)) = none →
      check_workspace r fs module_id = none →
      settingsMiss r module_id → collectionMiss r module_id →
      truthyStr profile_hint = none →
      resolve_with_layer r env fs installed module_id profile_hint
        = (resolve_package r installed module_id).map (fun p => (.package p, "package"))) := by
  refine ⟨?_, ?_, ?_, ?_, ?_, ?_⟩
  · intro v hv
    simp [resolve_with_layer, hv]
  · intro hv ws hws
    have hne : r.workspace_dirs ≠ [] := by
      intro h
      rw [check_workspace, h] at hws
      simp at hws
    simp [resolve_with_layer, hv, hws, hne]
  · intro hv hws m src hm hlk
    simp [resolve_with_layer, hv, workspaceGuard_eq, hws, settingsLayer, hm, hlk]
  · intro hv hws hsm m p hm hlk
    rw [resolve_with_layer]
    simp only [hv, workspaceGuard_eq, hws]
    rw [settingsLayer_of_miss r installed module_id profile_hint hsm]
    simp [collectionLayer, hm, hlk]
  · intro hv hws hsm hcm h hh
    rw [resolve_with_layer]
    simp only [hv, workspaceGuard_eq, hws]
    rw [settingsLayer_of_miss r installed module_id profile_hint hsm,
      collectionLayer_of_miss r installed module_id profile_hint hcm]
    simp [profileLayer, hh]
  · intro hv hws hsm hcm hh
    rw [resolve_with_layer]
    simp only [hv, workspaceGuard_eq, hws]
    rw [settingsLayer_of_miss r installed module_id profile_hint hsm,
      collectionLayer_of_miss r installed module_id profile_hint hcm]
    simp [profileLayer, packageLayer, hh]

/-- Witness for C1: a concrete configuration in which every layer can match;
peeling the layers one by one yields the tags env, workspace, settings,
collection, profile and package in that order. -/
theorem resolve_with_layer_precedence_witness :
    (resolve_with_layer ⟨["ws"], some (.ok [("provider-x", "git+https://s/r@main")]),
        some (.ok [("provider-x", "/col/provider-x")])⟩
      (fun k => if k = "AMPLIFIER_MODULE_PROVIDER_X" then some "git+https://e/r@main" else none)
      ⟨["ws/provider-x/core.py"], ["ws", "ws/provider-x"]⟩ (fun _ => true) "provider-x"
      (some "git+https://p/r@main")
      = (parse_source (.str "git+https://e/r@main") "provider-x").map (fun s => (s, "env"))) ∧
    (resolve_with_layer ⟨["ws"], some (.ok [("provider-x", "git+https://s/r@main")]),
        some (.ok [("provider-x", "/col/provider-x")])⟩
      (fun _ => none)
      ⟨["ws/provider-x/core.py"], ["ws", "ws/provider-x"]⟩ (fun _ => true) "provider-x"
      (some "git+https://p/r@main")
      = .ok (.file ⟨"ws/provider-x"⟩, "workspace")) ∧
    (resolve_with_layer ⟨[], some (.ok [("provider-x", "git+https://s/r@main")]),
        some (.ok [("provider-x", "/col/provider-x")])⟩
      (fun _ => none) ⟨[], []⟩ (fun _ => true) "provider-x"
      (some "git+https://p/r@main")
      = (parse_source (.str "git+https://s/r@main") "provider-x").map (fun s => (s, "settings"))) ∧
    (resolve_with_layer ⟨[], none, some (.ok [("provider-x", "/col/provider-x")])⟩
      (fun _ => none) ⟨[], []⟩ (fun _ => true) "provider-x"
      (some "git+https://p/r@main")
      = .ok (.file ⟨"/col/provider-x"⟩, "collection")) ∧
    (resolve_with_layer ⟨[], none, none⟩
      (fun _ => none) ⟨[], []⟩ (fun _ => true) "provider-x"
      (some "git+https://p/r@main")
      = (parse_source (.str "git+https://p/r@main") "provider-x").map (fun s => (s, "profile"))) ∧
    (resolve_with_layer ⟨[], none, none⟩
      (fun _ => none) ⟨[], []⟩ (fun _ => true) "provider-x" none
      = (resolve_package ⟨[], none, none⟩ (fun _ => true) "provider-x").map
          (fun p => (.package p, "package"))) := by
  refine ⟨?_, ?_, ?_, ?_, ?_, ?_⟩
  · exact (resolve_with_layer_precedence _ _ _ _ _ _).1 "git+https://e/r@main" (by decide)
  · exact (resolve_with_layer_precedence _ _ _ _ _ _).2.1 (by decide) _ (by decide)
  · exact (resolve_with_layer_precedence _ _ _ _ _ _).2.2.1 (by decide) (by decide)
      _ _ rfl (by decide)
  · exact (resolve_with_layer_precedence _ _ _ _ _ _).2.2.2.1 (by decide) (by decide)
      (Or.inl rfl) _ _ rfl (by decide)
  · exact (resolve_with_layer_precedence _ _ _ _ _ _).2.2.2.2.1 (by decide) (by decide)
      (Or.inl rfl) (Or.inl rfl) _ (by decide)
  · exact (resolve_with_layer_precedence _ _ _ _ _ _).2.2.2.2.2 (by decide) (by decide)
      (Or.inl rfl) (Or.inl rfl) (by decide)

/-- C10: for every module id, when the environment variable
`AMPLIFIER_MODULE_<MODULE_ID_UPPER_SNAKE>` is set to the empty string, the
env layer does not match and `resolve_with_layer` behaves exactly as if the
variable were unset, proceeding to the workspace and later layers. -/
theorem env_empty_string_like_unset
    (r : StandardModuleSourceResolver) (fs : FileSystem) (installed : String → Bool)
    (module_id : String) (profile_hint : Option String)
    (env1 env2 : String → Option String)
    (h1 : env1 (envKey module_id) = some "")
    (h2 : env2 (envKey module_id) = none) :
    resolve_with_layer r env1 fs installed module_id profile_hint
      = resolve_with_layer r env2 fs installed module_id profile_hint := by
  rw [resolve_with_layer, resolve_with_layer, h1, h2]
  simp [truthyStr]

/-- Witness for C10: with the variable for tool-x set to the empty string,
resolution coincides with the fully-unset environment. -/
theorem env_empty_string_like_unset_witness :
    resolve_with_layer ⟨[], none, none⟩
        (fun k => if k = envKey "tool-x" then some "" else none) ⟨[], []⟩
        (fun _ => true) "tool-x" none
      = resolve_with_layer ⟨[], none, none⟩ (fun _ => none) ⟨[], []⟩
        (fun _ => true) "tool-x" none :=
  env_empty_string_like_unset _ _ _ _ _ _ _ (by simp) rfl

/-- C9: a workspace candidate directory is rejected — skipping to the next
workspace directory — when it does not exist, when it is an empty submodule
(a version-control marker file but no Python files beneath it), or when it
contains no Python files at all; in particular a workspace entry containing
only a marker file falls through to the settings layer. -/
theorem workspace_candidate_rejection
    (fs : FileSystem) (module_id d : String) (rest : List String) :
    (fs.pathExists (d ++ "/" ++ module_id) = false ∨
        is_empty_submodule fs (d ++ "/" ++ module_id) = true ∨
        fs.globPy (d ++ "/" ++ module_id) = false →
      checkWorkspaceDirs fs module_id (d :: rest) = checkWorkspaceDirs fs module_id rest) ∧
    (∀ (r : StandardModuleSourceResolver) (env : String → Option String)
        (installed : String → Bool) (profile_hint : Option String)
        (m : List (String × String)) (src : String),
      truthyStr (env (envKey module_id)) = none →
      r.workspace_dirs = [d] →
      fs.isFile (d ++ "/" ++ module_id ++ "/.git") = true →
      fs.globPy (d ++ "/" ++ module_id) = false →
      r.settings_provider = some (.ok m) →
      lookupStr m module_id = some src →
      resolve_with_layer r env fs installed module_id profile_hint
        = (parse_source (.str src) module_id).map (fun s => (s, "settings"))) := by
  constructor
  · intro h
    rcases h with h | h | h
    · simp [checkWorkspaceDirs, h]
    · cases hpe : fs.pathExists (d ++ "/" ++ module_id) <;>
        simp [checkWorkspaceDirs, hpe, h]
    · cases hpe : fs.pathExists (d ++ "/" ++ module_id) <;>
        cases hes : is_empty_submodule fs (d ++ "/" ++ module_id) <;>
        simp [checkWorkspaceDirs, hpe, hes, h]
  · intro r env installed profile_hint m src hv hw hgit hpy hm hlk
    have hes : is_empty_submodule fs (d ++ "/" ++ module_id) = true := by
      simp [is_empty_submodule, hgit, hpy, pathExists_of_isFile _ _ hgit]
    have hcw : check_workspace r fs module_id = none := by
      cases hpe : fs.pathExists (d ++ "/" ++ module_id) <;>
        simp [check_workspace, hw, checkWorkspaceDirs, hpe, hes]
    simp [resolve_with_layer, hv, hcw, settingsLayer, hm, hlk]

/-- Witness for C9: a workspace whose candidate holds only a `.git` marker
file is skipped and the settings layer answers. -/
theorem workspace_candidate_rejection_witness :
    resolve_with_layer ⟨["ws"], some (.ok [("provider-a", "git+https://s/r@main")]), none⟩
        (fun _ => none) ⟨["ws/provider-a/.git"], ["ws", "ws/provider-a"]⟩
        (fun _ => true) "provider-a" none
      = (parse_source (.str "git+https://s/r@main") "provider-a").map
          (fun s => (s, "settings")) :=
  (workspace_candidate_rejection ⟨["ws/provider-a/.git"], ["ws", "ws/provider-a"]⟩
      "provider-a" "ws" []).2 _ _ _ _ _ _
    (by decide) rfl (by decide) (by decide) rfl (by decide)

/-- C6 counterexample: a provider that raises is not skipped — the exception
propagates out of `resolve_with_layer` (the result is the provider
exception, which differs from what advancing past that layer would produce),
refuting the claim that an individual layer failure never propagates; this
holds both for a raising settings provider and for a raising collection
provider. -/
theorem provider_error_propagates :
    resolve_with_layer ⟨[], some (.error "settings backend crashed"), none⟩
        (fun _ => none) ⟨[], []⟩ (fun _ => false) "tool-x" none
      = .error (.providerError "settings backend crashed") ∧
    resolve_with_layer ⟨[], some (.error "settings backend crashed"), none⟩
        (fun _ => none) ⟨[], []⟩ (fun _ => false) "tool-x" none
      ≠ resolve_with_layer ⟨[], none, none⟩
        (fun _ => none) ⟨[], []⟩ (fun _ => false) "tool-x" none ∧
    resolve_with_layer ⟨[], none, some (.error "collection backend crashed")⟩
        (fun _ => none) ⟨[], []⟩ (fun _ => false) "tool-x" none
      = .error (.providerError "collection backend crashed") ∧
    resolve_with_layer ⟨[], none, some (.error "collection backend crashed")⟩
        (fun _ => none) ⟨[], []⟩ (fun _ => false) "tool-x" none
      ≠ resolve_with_layer ⟨[], none, none⟩
        (fun _ => none) ⟨[], []⟩ (fun _ => false) "tool-x" none :=
  ⟨rfl, by decide, rfl, by decide⟩

/-- C6 amended: a layer lookup miss does not propagate — after the earlier
layers missed, a settings or collection mapping lacking the module id makes
the resolver advance to the next layer; an exception raised by the settings
provider or by the collection provider, however, propagates out of
`resolve_with_layer` rather than being swallowed. -/
theorem layer_lookup_miss_advances :
    (∀ (r : StandardModuleSourceResolver) (env : String → Option String)
        (fs : FileSystem) (installed : String → Bool) (module_id : String)
        (profile_hint : Option String) (m : List (String × String)),
      truthyStr (env (envKey module_id)) = none →
      check_workspace r fs module_id = none →
      r.settings_provider = some (.ok m) → lookupStr m module_id = none →
      resolve_with_layer r env fs installed module_id profile_hint
        = collectionLayer r installed module_id profile_hint) ∧
    (∀ (r : StandardModuleSourceResolver) (env : String → Option String)
        (fs : FileSystem) (installed : String → Bool) (module_id : String)
        (profile_hint : Option String) (m : List (String × String)),
      truthyStr (env (envKey module_id)) = none →
      check_workspace r fs module_id = none →
      settingsMiss r module_id →
      r.collection_provider = some (.ok m) → lookupStr m module_id = none →
      resolve_with_layer r env fs installed module_id profile_hint
        = profileLayer r installed module_id profile_hint) ∧
    (∀ (r : StandardModuleSourceResolver) (env : String → Option String)
        (fs : FileSystem) (installed : String → Bool) (module_id : String)
        (profile_hint : Option String) (e : String),
      truthyStr (env (envKey module_id)) = none →
      check_workspace r fs module_id = none →
      r.settings_provider = some (.error e) →
      resolve_with_layer r env fs installed module_id profile_hint
        = .error (.providerError e)) ∧
    (∀ (r : StandardModuleSourceResolver) (env : String → Option String)
        (fs : FileSystem) (installed : String → Bool) (module_id : String)
        (profile_hint : Option String) (e : String),
      truthyStr (env (envKey module_id)) = none →
      check_workspace r fs module_id = none →
      settingsMiss r module_id →
      r.collection_provider = some (.error e) →
      resolve_with_layer r env fs installed module_id profile_hint
        = .error (.providerError e)) := by
  refine ⟨?_, ?_, ?_, ?_⟩
  · intro r env fs installed module_id profile_hint m hv hws hm hlk
    simp [resolve_with_layer, hv, hws, settingsLayer, hm, hlk]
  · intro r env fs installed module_id profile_hint m hv hws hsm hm hlk
    rw [resolve_with_layer]
    simp only [hv, workspaceGuard_eq, hws]
    rw [settingsLayer_of_miss r installed module_id profile_hint hsm]
    simp [collectionLayer, hm, hlk]
  · intro r env fs installed module_id profile_hint e hv hws hm
    simp [resolve_with_layer, hv, hws, settingsLayer, hm]
  · intro r env fs installed module_id profile_hint e hv hws hsm hm
    rw [resolve_with_layer]
    simp only [hv, workspaceGuard_eq, hws]
    rw [settingsLayer_of_miss r installed module_id profile_hint hsm]
    simp [collectionLayer, hm]

/-- Witness for C6 (amended): a settings mapping without the module id makes
resolution continue with the collection layer, and a raising collection
provider makes resolution end in that provider's exception. -/
theorem layer_lookup_miss_advances_witness :
    (resolve_with_layer ⟨[], some (.ok [("other-module", "pkg")]), none⟩
        (fun _ => none) ⟨[], []⟩ (fun _ => false) "tool-x" none
      = collectionLayer ⟨[], some (.ok [("other-module", "pkg")]), none⟩
          (fun _ => false) "tool-x" none) ∧
    (resolve_with_layer ⟨[], none, some (.error "collection boom")⟩
        (fun _ => none) ⟨[], []⟩ (fun _ => false) "tool-x" none
      = .error (.providerError "collection boom")) :=
  ⟨layer_lookup_miss_advances.1 _ _ _ _ _ _ _ rfl rfl rfl (by decide),
   layer_lookup_miss_advances.2.2.2 _ _ _ _ _ _ _ rfl rfl (Or.inl rfl) rfl⟩

/-- C7 counterexample: parsing a structured descriptor with an unknown type
fails with a `ValueError` naming the bad type and the module id, but that
error is NOT a ResolutionError (ValueError lies outside the
ModuleResolutionError hierarchy), refuting the final part of the claim. -/
theorem parse_source_invalid_type_not_resolution_error :
    parse_source (.dict ⟨some "invalid", none, none, none, none, none⟩) "test"
      = .error (.valueError "Invalid source type \x27invalid\x27 for module \x27test\x27") ∧
    PyError.isResolutionError
      (.valueError "Invalid source type \x27invalid\x27 for module \x27test\x27") = false :=
  ⟨rfl, rfl⟩

/-- C7 amended: parsing a structured source descriptor whose type field is
not git, file or package fails with a validation error whose message names
the bad type (None when the field is missing) and the module id; that error
is a `ValueError`, not a ResolutionError. -/
theorem parse_source_invalid_type_value_error (d : DictSource) (module_id : String) :
    (∀ t, d.type = some t → t ≠ "git" → t ≠ "file" → t ≠ "package" →
      parse_source (.dict d) module_id
        = .error (.valueError ("Invalid source type \x27" ++ t ++ "\x27 for module \x27"
            ++ module_id ++ "\x27")) ∧
      PyError.isResolutionError
        (.valueError ("Invalid source type \x27" ++ t ++ "\x27 for module \x27"
            ++ module_id ++ "\x27")) = false) ∧
    (d.type = none →
      parse_source (.dict d) module_id
        = .error (.valueError ("Invalid source type \x27" ++ "None" ++ "\x27 for module \x27"
            ++ module_id ++ "\x27"))) := by
  constructor
  · intro t ht h1 h2 h3
    exact ⟨by simp [parse_source, ht, pyShow, h1, h2, h3], rfl⟩
  · intro ht
    simp [parse_source, ht, pyShow]

/-- Witness for C7 (amended): the concrete descriptor of the regression test. -/
theorem parse_source_invalid_type_value_error_witness :
    parse_source (.dict ⟨some "invalid", none, none, none, none, none⟩) "test"
      = .error (.valueError ("Invalid source type \x27" ++ "invalid" ++ "\x27 for module \x27"
          ++ "test" ++ "\x27")) ∧
    PyError.isResolutionError
      (.valueError ("Invalid source type \x27" ++ "invalid" ++ "\x27 for module \x27"
          ++ "test" ++ "\x27")) = false :=
  (parse_source_invalid_type_value_error ⟨some "invalid", none, none, none, none, none⟩
      "test").1 "invalid" rfl (by decide) (by decide) (by decide)

/-- C8 (modelled from the spec): `GitSource.from_uri` strips the git+ scheme
marker, splits on the commercial-at into url and ref, and splits a trailing
subdirectory fragment: the basic URI yields the expected url, ref v1.0.0 and
no subdirectory; omitting the ref defaults it to main; a fragment yields the
subdirectory; a string lacking the git+ marker is rejected with an error. -/
theorem from_uri_parses_scheme_ref_and_fragment :
    GitSource.from_uri "git+https://github.com/org/repo@v1.0.0"
      = .ok ⟨"https://github.com/org/repo", "v1.0.0", none⟩ ∧
    GitSource.from_uri "git+https://github.com/org/repo"
      = .ok ⟨"https://github.com/org/repo", "main", none⟩ ∧
    GitSource.from_uri "git+https://github.com/org/repo@main#subdirectory=src/module"
      = .ok ⟨"https://github.com/org/repo", "main", some "src/module"⟩ ∧
    GitSource.from_uri "https://github.com/org/repo"
      = .error (.valueError
          "Invalid git URI \x27https://github.com/org/repo\x27: must start with \x27git+\x27") :=
  ⟨rfl, rfl, rfl, rfl⟩

/-- C5: when layers 1 through 5 miss, the resolver first tries the module id
as an installed package name, then retries with the convention name
amplifier-module-<module_id>; when neither is installed,
`resolve_with_layer` raises a ModuleResolutionError whose message contains
"not found" and enumerates all six layers: the checked env var name, the
checked workspace paths, the Settings, Collections and Profile lines, and
both tried package names. -/
theorem resolve_package_fallback_and_error
    (r : StandardModuleSourceResolver) (installed : String → Bool) (module_id : String) :
    (installed module_id = true →
      resolve_package r installed module_id = .ok ⟨module_id⟩) ∧
    (installed module_id = false →
      installed ("amplifier-module-" ++ module_id) = true →
      resolve_package r installed module_id = .ok ⟨"amplifier-module-" ++ module_id⟩) ∧
    (installed module_id = false →
      installed ("amplifier-module-" ++ module_id) = false →
      ∀ (env : String → Option String) (fs : FileSystem) (profile_hint : Option String),
      truthyStr (env (envKey module_id)) = none →
      check_workspace r fs module_id = none →
      settingsMiss r module_id → collectionMiss r module_id →
      truthyStr profile_hint = none →
      resolve_with_layer r env fs installed module_id profile_hint
        = .error (.moduleResolutionError
            (resolutionFailureMessage r module_id ("amplifier-module-" ++ module_id)))) ∧
    (∀ msg, msg = resolutionFailureMessage r module_id ("amplifier-module-" ++ module_id) →
      hasSub msg "not found" ∧
      hasSub msg ("Environment: AMPLIFIER_MODULE_" ++ upperSnake module_id) ∧
      hasSub msg "Workspace:" ∧
      (∀ dd ∈ r.workspace_dirs, hasSub msg (dd ++ "/" ++ module_id)) ∧
      hasSub msg "Settings:" ∧
      hasSub msg "Collections:" ∧
      hasSub msg "Profile:" ∧
      hasSub msg ("Tried \x27" ++ module_id ++ "\x27 and \x27"
        ++ ("amplifier-module-" ++ module_id))) := by
  refine ⟨?_, ?_, ?_, ?_⟩
  · intro h1
    simp [resolve_package, h1]
  · intro h1 h2
    simp [resolve_package, h1, h2]
  · intro h1 h2 env fs profile_hint hv hws hsm hcm hh
    rw [resolve_with_layer]
    simp only [hv, workspaceGuard_eq, hws]
    rw [settingsLayer_of_miss r installed module_id profile_hint hsm,
      collectionLayer_of_miss r installed module_id profile_hint hcm]
    simp [profileLayer, packageLayer, hh, resolve_package, h1, h2, Except.map]
  · intro msg hmsg
    subst hmsg
    simp only [resolutionFailureMessage]
    refine ⟨?_, ?_, ?_, ?_, ?_, ?_, ?_, ?_⟩
    · iterate 20 apply hasSub_appL
      exact hasSub_tail "\x27 " "\n\n" (by decide)
    · iterate 17 apply hasSub_appL
      exact hasSub_tail_glue "  1. " (by decide)
    · iterate 15 apply hasSub_appL
      exact hasSub_tail "  2. " " " (by decide)
    · intro dd hdd
      iterate 14 apply hasSub_appL
      apply hasSub_appR
      have hne : r.workspace_dirs.isEmpty = false := by
        cases hw : r.workspace_dirs
        · rw [hw] at hdd; simp at hdd
        · simp [hw]
      rw [if_neg (by simp [hne])]
      exact hasSub_appL (hasSub_joinComma _ (List.mem_map_of_mem _ hdd)) _
    · iterate 12 apply hasSub_appL
      exact hasSub_tail "  3. " " (no entry)\n" (by decide)
    · iterate 11 apply hasSub_appL
      exact hasSub_tail "  4. " " (no registered module)\n" (by decide)
    · iterate 10 apply hasSub_appL
      exact hasSub_tail "  5. " " (no source specified)\n" (by decide)
    · iterate 6 apply hasSub_appL
      exact hasSub_tail_glue4 "  6. Package: " (by decide)

/-- Witness for C5: an empty resolver and no installed packages yield the
composed six-layer ModuleResolutionError. -/
theorem resolve_package_fallback_and_error_witness :
    resolve_with_layer ⟨["ws"], none, none⟩ (fun _ => none) ⟨[], []⟩
        (fun _ => false) "tool-x" none
      = .error (.moduleResolutionError
          (resolutionFailureMessage ⟨["ws"], none, none⟩ "tool-x"
            ("amplifier-module-" ++ "tool-x"))) :=
  (resolve_package_fallback_and_error ⟨["ws"], none, none⟩ (fun _ => false)
      "tool-x").2.2.1 rfl rfl _ _ _ rfl (by decide) (Or.inl rfl) (Or.inl rfl) rfl

/-- C2 counterexample: the cache key truncates the SHA-256 digest to 12 hex
characters (48 bits), so two Git sources that differ only in the
subdirectory can collide: with the url and ref of the regression test, the
subdirectories 15372064 and 25748319 are distinct and give distinct
cache-key inputs, yet both cache keys are the same 12-character string,
refuting pairwise distinctness of the keys for every url and ref. -/
theorem cache_key_subdirectory_collision :
    ("15372064" : String) ≠ "25748319" ∧
    GitSource.cache_key_input ⟨"https://github.com/org/repo", "main", some "15372064"⟩
      ≠ GitSource.cache_key_input ⟨"https://github.com/org/repo", "main", some "25748319"⟩ ∧
    GitSource.cache_key ⟨"https://github.com/org/repo", "main", some "15372064"⟩
      = GitSource.cache_key ⟨"https://github.com/org/repo", "main", some "25748319"⟩ ∧
    GitSource.cache_key ⟨"https://github.com/org/repo", "main", some "15372064"⟩
      = "39a680b55d58" :=
  ⟨by decide, by decide, rfl, rfl⟩

/-- C2 amended: the cache key is the first 12 hex characters of the SHA-256
of the string url@ref, suffixed with a hash mark and the subdirectory when
one is present; for every url and ref the three cache-key INPUTS of
Git(url, ref), Git(url, ref, a) and Git(url, ref, b) with a ≠ b are pairwise
distinct strings, and the three concrete sources of the regression test
produce pairwise-distinct cache keys; distinctness of the truncated keys for
every url, ref and subdirectory pair, however, does not hold (see the
collision counterexample). -/
theorem cache_key_input_injective (url ref a b : String) (hab : a ≠ b) :
    GitSource.cache_key_input ⟨url, ref, none⟩
      ≠ GitSource.cache_key_input ⟨url, ref, some a⟩ ∧
    GitSource.cache_key_input ⟨url, ref, none⟩
      ≠ GitSource.cache_key_input ⟨url, ref, some b⟩ ∧
    GitSource.cache_key_input ⟨url, ref, some a⟩
      ≠ GitSource.cache_key_input ⟨url, ref, some b⟩ ∧
    GitSource.cache_key ⟨"https://github.com/org/repo", "main", none⟩
      ≠ GitSource.cache_key ⟨"https://github.com/org/repo", "main", some "modules/tool-x"⟩ ∧
    GitSource.cache_key ⟨"https://github.com/org/repo", "main", none⟩
      ≠ GitSource.cache_key ⟨"https://github.com/org/repo", "main", some "modules/tool-y"⟩ ∧
    GitSource.cache_key ⟨"https://github.com/org/repo", "main", some "modules/tool-x"⟩
      ≠ GitSource.cache_key ⟨"https://github.com/org/repo", "main", some "modules/tool-y"⟩ := by
  refine ⟨?_, ?_, ?_, by decide, by decide, by decide⟩
  · intro h
    have hl := congrArg String.length h
    simp only [GitSource.cache_key_input, String.length_append] at hl
    have h1 : ("#" : String).length = 1 := rfl
    omega
  · intro h
    have hl := congrArg String.length h
    simp only [GitSource.cache_key_input, String.length_append] at hl
    have h1 : ("#" : String).length = 1 := rfl
    omega
  · intro h
    have h2 := congrArg String.data h
    simp only [GitSource.cache_key_input, String.data_append, List.append_assoc] at h2
    exact hab (String.ext
      (List.append_cancel_left (List.append_cancel_left
        (List.append_cancel_left (List.append_cancel_left h2)))))

/-- Witness for C2 (amended): the input-distinctness conclusions at two
concrete distinct subdirectories, together with the key distinctness of the
regression-test sources. -/
theorem cache_key_input_injective_witness :
    GitSource.cache_key_input ⟨"https://h/o/r", "main", none⟩
      ≠ GitSource.cache_key_input ⟨"https://h/o/r", "main", some "x"⟩ ∧
    GitSource.cache_key_input ⟨"https://h/o/r", "main", none⟩
      ≠ GitSource.cache_key_input ⟨"https://h/o/r", "main", some "y"⟩ ∧
    GitSource.cache_key_input ⟨"https://h/o/r", "main", some "x"⟩
      ≠ GitSource.cache_key_input ⟨"https://h/o/r", "main", some "y"⟩ ∧
    GitSource.cache_key ⟨"https://github.com/org/repo", "main", none⟩
      ≠ GitSource.cache_key ⟨"https://github.com/org/repo", "main", some "modules/tool-x"⟩ ∧
    GitSource.cache_key ⟨"https://github.com/org/repo", "main", none⟩
      ≠ GitSource.cache_key ⟨"https://github.com/org/repo", "main", some "modules/tool-y"⟩ ∧
    GitSource.cache_key ⟨"https://github.com/org/repo", "main", some "modules/tool-x"⟩
      ≠ GitSource.cache_key ⟨"https://github.com/org/repo", "main", some "modules/tool-y"⟩ :=
  cache_key_input_injective "https://h/o/r" "main" "x" "y" (by decide)

/-- C3 (modelled from the spec): a successful resolve of a Git source
carrying a subdirectory returns exactly cache_root/cache_key/ref — never
that path extended with the subdirectory — and after a fetch the fetched
module files are present directly at that returned path. -/
theorem git_resolve_returns_cache_path (s : GitSource) (cache_root : String)
    (fs : FileSystem) (sd : String) (hsd : s.subdirectory = some sd) :
    (∀ (fetch : FetchOutcome) (p : String) (fs2 : FileSystem),
      s.resolve cache_root fs fetch = .ok (p, fs2) →
      p = cache_root ++ "/" ++ s.cache_key ++ "/" ++ s.ref ∧
      p ≠ cache_root ++ "/" ++ s.cache_key ++ "/" ++ s.ref ++ "/" ++ sd) ∧
    (∀ files : List String,
      fs.pathExists (s.cache_path cache_root) = false →
      ∃ fs2, s.resolve cache_root fs (.success files)
          = .ok (s.cache_path cache_root, fs2) ∧
        ∀ f ∈ files, (s.cache_path cache_root ++ "/" ++ f) ∈ fs2.files) := by
  constructor
  · intro fetch p fs2 hres
    have hp : p = s.cache_path cache_root := by
      simp only [GitSource.resolve] at hres
      cases hhit : fs.pathExists (s.cache_path cache_root) <;> rw [hhit] at hres
      · cases fetch <;> simp at hres
        exact hres.1.symm
      · simp at hres
        exact hres.1.symm
    constructor
    · exact hp
    · rw [hp]
      intro heq
      have hl := congrArg String.length heq
      simp only [GitSource.cache_path, String.length_append] at hl
      have h1 : ("/" : String).length = 1 := rfl
      omega
  · intro files hmiss
    refine ⟨⟨fs.files ++ files.map (fun f => s.cache_path cache_root ++ "/" ++ f),
             s.cache_path cache_root :: fs.dirs⟩, ?_, ?_⟩
    · simp [GitSource.resolve, hmiss]
    · intro f hf
      exact List.mem_append_right _ (List.mem_map_of_mem _ hf)

/-- Witness for C3: a concrete subdirectory-carrying source on an empty
cache; the fetched file lands directly under the returned cache path. -/
theorem git_resolve_returns_cache_path_witness :
    ∃ fs2, GitSource.resolve ⟨"https://github.com/org/repo", "main", some "modules/tool-x"⟩
        "/cache" ⟨[], []⟩ (.success ["core.py"])
      = .ok (GitSource.cache_path
          ⟨"https://github.com/org/repo", "main", some "modules/tool-x"⟩ "/cache", fs2) ∧
    ∀ f ∈ ["core.py"],
      (GitSource.cache_path ⟨"https://github.com/org/repo", "main", some "modules/tool-x"⟩
          "/cache" ++ "/" ++ f) ∈ fs2.files :=
  (git_resolve_returns_cache_path ⟨"https://github.com/org/repo", "main", some "modules/tool-x"⟩
      "/cache" ⟨[], []⟩ "modules/tool-x" rfl).2 ["core.py"] rfl

/-- C4 (modelled from the spec): with the cache path already present on
disk, resolve is a pure cache hit — it returns that path with the filesystem
unchanged, so a second call returns the same path again, and the result does
not depend on the fetch tool at all (the tool is not consulted). -/
theorem git_resolve_cache_hit_idempotent (s : GitSource) (cache_root : String)
    (fs : FileSystem) (hhit : fs.pathExists (s.cache_path cache_root) = true) :
    (∀ fetch, s.resolve cache_root fs fetch = .ok (s.cache_path cache_root, fs)) ∧
    (∀ fetch1 fetch2,
      s.resolve cache_root fs fetch1 = s.resolve cache_root fs fetch2) := by
  constructor
  · intro fetch
    simp [GitSource.resolve, hhit]
  · intro f1 f2
    simp [GitSource.resolve, hhit]

/-- Witness for C4: a populated cache returns its path even when the fetch
tool would fail, showing the tool is not invoked on a hit. -/
theorem git_resolve_cache_hit_idempotent_witness :
    GitSource.resolve ⟨"https://github.com/org/repo", "main", none⟩ "/cache"
        ⟨[], [GitSource.cache_path ⟨"https://github.com/org/repo", "main", none⟩ "/cache"]⟩
        (.failure "network down")
      = .ok (GitSource.cache_path ⟨"https://github.com/org/repo", "main", none⟩ "/cache",
          ⟨[], [GitSource.cache_path ⟨"https://github.com/org/repo", "main", none⟩ "/cache"]⟩) :=
  (git_resolve_cache_hit_idempotent _ _ _ (by simp [FileSystem.pathExists])).1 _

end AmplifierResolution
